import Mathlib

/-!
Shallow embedding of the security-trybot dispatcher (`package main`,
`src/unnamed/part_000`): worker runs, the fan-out dispatcher, the GCS live
log writer, the archive fetcher, the result reporter and the scheduling
loop in `main`.  External collaborators (the coordinator, Gerrit, GCS, the
HTTP client) are modelled as oracles/environments; byte strings are
`List Nat`.
-/

namespace SecTrybot

/-- Embeds the Go struct `result` (part_000:246-250):
`{builderType string; logURL string; succeeded bool}`. -/
structure result where
  builderType : String
  logURL : String
  succeeded : Bool
deriving DecidableEq, Repr

/-! ## Result reporter (`commentResults`, part_000:293-318) -/

/-- One table row as written by `fmt.Fprintf(w, "    %s\t[%s]\t%s\n", ...)`
in `commentResults` (part_000:298-306): the marker string `s` is `"pass"`
for a succeeded result and `"failed"` otherwise.  The `tabwriter` later
replaces the tabs by alignment padding; the row text itself is modelled
here pre-alignment. -/
def resultLine (res : result) : String :=
  "    " ++ res.builderType ++ "\t[" ++ (if res.succeeded then "pass" else "failed")
    ++ "]\t" ++ res.logURL ++ "\n"

/-- The list of table rows of the final report, one per result, in order
(the `for _, res := range results` loop of `commentResults`). -/
def commentRows (results : List result) : List String :=
  results.map resultLine

/-- The aggregate `(state, label)` computed by `commentResults`
(part_000:294-304): both start as `("succeeded", 1)` and each result with
`succeeded == false` sets them to `("failed", -1)`. -/
def commentAgg (results : List result) : String × Int :=
  results.foldl (fun acc res => if res.succeeded then acc else ("failed", -1))
    ("succeeded", 1)

/-- The review comment text `fmt.Sprintf("Tests %s\n%s", state, buf.String())`
(part_000:309); for an empty row list the tabwriter contributes nothing, for
nonempty rows the tab-separated rows are modelled pre-alignment. -/
def commentText (results : List result) : String :=
  "Tests " ++ (commentAgg results).1 ++ "\n" ++ String.join (commentRows results)

/-- Table row as the SPEC words it (`builderType  [pass|fail]  logLocator`):
identical to `resultLine` except that the failure marker is `"fail"`.
Written from the spec for comparison with the source's `resultLine`. -/
def specResultLine (res : result) : String :=
  "    " ++ res.builderType ++ "\t[" ++ (if res.succeeded then "pass" else "fail")
    ++ "]\t" ++ res.logURL ++ "\n"

/-! ## Archive fetcher (`getTar`, part_000:217-244) -/

/-- The error outcomes of `getTar`: a transport error (`http.NewRequest` /
`t.http.Do` / `io.ReadAll` failing), the `fmt.Errorf("failed to fetch ...")`
error for a non-200 status, and the distinct error returned by
`gzip.NewReader` when the body is not a gzip stream. -/
inductive TarError
  | netError
  | fetchError (status : Nat)
  | invalidArchive
deriving DecidableEq, Repr

/-- An HTTP response as `getTar` observes it: status code and body bytes. -/
structure HTTPResponse where
  statusCode : Nat
  body : List Nat
deriving DecidableEq, Repr

/-- Embeds `getTar` (part_000:217-244).  The HTTP client is modelled as the
list of responses successive `Do` calls would return (empty list: the
single request fails at transport level).  `gzipValid` models
`gzip.NewReader` succeeding on the bytes; the body is returned unmodified
exactly when the status is 200 and the gzip check passes.  `getTar` issues
exactly one request, so only the head response is consumed. -/
def getTar (gzipValid : List Nat → Bool) : List HTTPResponse → Except TarError (List Nat)
  | [] => .error .netError
  | resp :: _ =>
    if resp.statusCode ≠ 200 then .error (.fetchError resp.statusCode)
    else if gzipValid resp.body then .ok resp.body
    else .error .invalidArchive

/-- Concrete model of the gzip header check `gzip.NewReader` performs on
the first bytes of the stream: magic bytes `0x1f 0x8b`, compression
method 8, and a full 10-byte header present. -/
def gzipMagic (b : List Nat) : Bool :=
  match b with
  | m1 :: m2 :: cm :: _ => m1 == 0x1f && m2 == 0x8b && cm == 8 && b.length ≥ 10
  | _ => false

/-! ## Builder selection in `main` (part_000:390-401) -/

/-- Embeds the map `allowedBuilders` (part_000:346-362) as its membership
function. -/
def allowedBuilders (b : String) : Bool :=
  ["js-wasm",
   "linux-386", "linux-386-longtest", "linux-amd64", "linux-amd64-longtest",
   "linux-amd64-bullseye",
   "darwin-amd64-12_0", "darwin-arm64-12",
   "windows-386-2012", "windows-amd64-2016", "windows-arm64-11"].contains b

/-- Embeds the slice `firstClassBuilders` (part_000:366-377). -/
def firstClassBuilders : List String :=
  ["linux-386-longtest", "linux-amd64-longtest", "linux-arm-aws", "linux-arm64-aws",
   "darwin-amd64-12_0", "darwin-arm64-12",
   "windows-386-2012", "windows-amd64-longtest"]

/-- Embeds `strings.Split(s, ",")` from the Go standard library: the
string cut at every comma (Go's `Split` with a one-character separator).
Defined over the character list so it is kernel-computable. -/
def stringsSplitComma (s : String) : List String :=
  (s.data.splitOn ',').map (fun cs => String.mk cs)

/-- The `for _, b := range strings.Split(...)` loop of `main`
(part_000:392-397): appends each allowed builder, and `log.Fatalf`s
(modelled as `none`) at the first builder not in `allowedBuilders`. -/
def checkBuilders : List String → List String → Option (List String)
  | [], acc => some acc
  | b :: rest, acc =>
    if allowedBuilders b then checkBuilders rest (acc ++ [b]) else none

/-- The builder-list selection of `main` (part_000:390-401): a non-empty
`-builders` flag is split on commas and checked against the allow-list
(`none` = fatal exit); an empty flag selects `firstClassBuilders` with no
check. -/
def selectBuilders (buildersStr : String) : Option (List String) :=
  if buildersStr ≠ "" then checkBuilders (stringsSplitComma buildersStr) []
  else some firstClassBuilders

/-! ## Worker run (`runTests`, part_000:50-141) -/

/-- The slice of a `dashboard.BuildConfig` that `runTests` reads:
bootstrap URL (empty string = already bootstrapped), environment, all-script
path and arguments. -/
structure BuildConfig where
  goBootstrapURL : String
  env : List String
  allScript : String
  allScriptArgs : List String
deriving DecidableEq, Repr

/-- Outcomes of the external calls one `runTests` invocation makes, used
as the oracle for the shallow embedding: `createWorker` is
`CreateBuildletWithStatus` (the created buildlet's remote name, or `none`
on error); `builderConfig` is the `dashboard.Builders[builderType]` lookup;
the `Ok` booleans are success of `PutTarFromURL`, `PutTar`, `Put` (VERSION)
and `newLiveWriter`; `workDir` is `c.WorkDir`; `suffix` the random hex
suffix; `execErr`/`remoteErr` the two error results of `c.Exec`. -/
structure RunEnv where
  createWorker : Option String
  builderConfig : Option BuildConfig
  putTarFromURLOk : Bool
  putTarOk : Bool
  putVersionOk : Bool
  liveWriterOk : Bool
  workDir : Option String
  suffix : String
  execErr : Bool
  remoteErr : Bool
deriving DecidableEq, Repr

/-- Lifecycle events a `runTests` invocation emits on the worker-provider
and log-sink resources: buildlet creation, the deferred `c.Close()`
teardown, and the deferred `gcsWriter.Close()`. -/
inductive WEvent
  | createWorker
  | closeWorker
  | closeSink
deriving DecidableEq, Repr

/-- One run's observable outcome: the `(string, bool)` return of
`runTests` plus the trace of lifecycle events it emitted. -/
structure RunTrace where
  logURL : String
  succeeded : Bool
  events : List WEvent
deriving DecidableEq, Repr

/-- The tail of `runTests` from `c.WorkDir` (part_000:114-140): work-dir
retrieval, then `c.Exec` with its two failure classes (`execErr` local,
`remoteErr` remote); every return path appends the deferred closes
(`post`), mirroring Go's defer unwinding. -/
def runExec (env : RunEnv) (logURL : String) (pre post : List WEvent) : RunTrace :=
  match env.workDir with
  | none => ⟨"", false, pre ++ post⟩
  | some _ =>
    if env.execErr then ⟨logURL, false, pre ++ post⟩
    else if env.remoteErr then ⟨logURL, false, pre ++ post⟩
    else ⟨logURL, true, pre ++ post⟩

/-- Embeds `runTests` (part_000:50-141).  `gcsBucket` is `some bucket`
when a GCS client is configured (part_000:96), else the local writer is
used and the log URL stays empty.  Each early-return path lists the
deferred closes that run on it: `c.Close()` on every path after a
successful create, `gcsWriter.Close()` additionally (and first, LIFO)
after a live writer was created. -/
def runTests (env : RunEnv) (gcsBucket : Option String) (rev builderType : String) :
    RunTrace :=
  match env.createWorker with
  | none => ⟨"", false, []⟩
  | some _ =>
    match env.builderConfig with
    | none => ⟨"", false, [.createWorker, .closeWorker]⟩
    | some cfg =>
      if cfg.goBootstrapURL ≠ "" && !env.putTarFromURLOk then
        ⟨"", false, [.createWorker, .closeWorker]⟩
      else if !env.putTarOk then ⟨"", false, [.createWorker, .closeWorker]⟩
      else if !env.putVersionOk then ⟨"", false, [.createWorker, .closeWorker]⟩
      else
        match gcsBucket with
        | some bucket =>
          if !env.liveWriterOk then ⟨"", false, [.createWorker, .closeWorker]⟩
          else
            runExec env
              ("https://storage.cloud.google.com/" ++ bucket ++ "/" ++ rev ++ "-"
                ++ env.suffix ++ "/" ++ builderType)
              [.createWorker] [.closeSink, .closeWorker]
        | none => runExec env "" [.createWorker] [.closeWorker]

/-! ## Fan-out dispatcher (`run`, part_000:253-277) -/

/-- Embeds `run` (part_000:253-277): fetch the archive via `getTar`
(propagating its error as `failed to retrieve change archive`), then one
`runTests` per requested builder type, each contributing exactly one
`result{bt, log, succeeded}` through the results channel; the
`WaitGroup` join is the completion of every mapped run.  The channel
collects in completion order; the embedding fixes dispatch order, which
the aggregation does not depend on. -/
def run (envs : String → RunEnv) (gcsBucket : Option String)
    (gzipValid : List Nat → Bool) (responses : List HTTPResponse)
    (revision : String) (builders : List String) : Except TarError (List result) :=
  match getTar gzipValid responses with
  | .error e => .error e
  | .ok _archive =>
    .ok (builders.map fun bt =>
      let tr := runTests (envs bt) gcsBucket revision bt
      ⟨bt, tr.logURL, tr.succeeded⟩)

/-! ## GCS live writer (`gcsLiveWriter`, part_000:143-199) -/

/-- Events interleaved on one `gcsLiveWriter`: a `Write` call appending
bytes to the buffer, the 5-second ticker firing (with the outcome of the
`write(buf.Bytes())` upload: `none` = success, `some e` = error `e`), and
the stop signal sent by `Close` being consumed by the goroutine (with the
outcome of the final upload). -/
inductive GEvent
  | write (b : List Nat)
  | tick (fail : Option Nat)
  | stop (fail : Option Nat)
deriving DecidableEq, Repr

/-- Events that neither consume the stop signal nor fail a periodic
flush: `Write` calls and successful ticker flushes.  Before `Close`, a
history of such events leaves the error channel empty. -/
def cleanEvent : GEvent → Bool
  | .write _ => true
  | .tick none => true
  | .tick (some _) => false
  | .stop _ => false

/-- The bytes an event contributes to the buffer (`Write` appends; ticker
flushes and the stop flush do not change the buffer). -/
def eventBytes : GEvent → List Nat
  | .write b => b
  | .tick _ => []
  | .stop _ => []

/-- State of one `gcsLiveWriter`: the in-memory buffer, the contents of
the buffered error channel `errCh` (capacity 1), the trace of upload
attempts (each recording the bytes uploaded), and the object content
after the last successful upload. -/
structure GState where
  buf : List Nat
  errQ : List (Option Nat)
  uploads : List (List Nat)
  obj : List Nat
deriving DecidableEq, Repr

/-- A send on the capacity-1 channel `errCh`: enqueued if there is room;
a sender facing a full channel blocks, so its value is not present for
the single receive `Close` performs. -/
def sendErr (q : List (Option Nat)) (v : Option Nat) : List (Option Nat) :=
  if q.length < 1 then q ++ [v] else q

/-- One step of the `gcsLiveWriter` machinery: `Write` appends under the
lock (part_000:189-194); a ticker fire uploads the full buffer and sends
the error to `errCh` only on failure (part_000:176-182); the stop case
uploads the full buffer and sends the result, success or not, to `errCh`
(part_000:172-175).  The `for { select }` loop has no exit, so there is
no stopped state: later events are processed the same way. -/
def gcsStep (s : GState) : GEvent → GState
  | .write b => { s with buf := s.buf ++ b }
  | .tick fail =>
    let s' := { s with uploads := s.uploads ++ [s.buf] }
    match fail with
    | none => { s' with obj := s.buf }
    | some e => { s' with errQ := sendErr s.errQ (some e) }
  | .stop fail =>
    let s' := { s with uploads := s.uploads ++ [s.buf] }
    match fail with
    | none => { s' with obj := s.buf, errQ := sendErr s.errQ none }
    | some e => { s' with errQ := sendErr s.errQ (some e) }

/-- `newLiveWriter` (part_000:153-167): empty buffer, empty error
channel, and the immediate write of an empty object so the log URL
resolves. -/
def gcsInit : GState := ⟨[], [], [[]], []⟩

/-- Runs a `gcsLiveWriter` over an event interleaving. -/
def gcsRun (evs : List GEvent) : GState := evs.foldl gcsStep gcsInit

/-- `Close` (part_000:196-199): `g.stop <- true` makes the goroutine
consume a `stop` event; `return <-g.err` receives the FIRST value in
`errCh` — the final flush's result only if no earlier failed periodic
flush already occupies the buffered channel.  Returns the final state and
the error `Close` returns (`none` = nil). -/
def gcsClose (pre : List GEvent) (finalFail : Option Nat) : GState × Option Nat :=
  let s := gcsRun (pre ++ [.stop finalFail])
  (s, (s.errQ.headD none))

/-! ## Scheduling loop (`main`, part_000:379-456) -/

/-- A change as `findChanges` returns it: identifier and current
revision (`gerrit.ChangeInfo`). -/
structure ChangeInfo where
  id : String
  currentRevision : String
deriving DecidableEq, Repr

/-- The outward-facing operations `main` drives: a Gerrit change query
(`findChanges`), a Gerrit review post (`SetReview`, optionally with the
TryBot-Result label), and one dispatcher invocation (`t.run`). -/
inductive Action
  | queryChanges (query : String)
  | setReview (changeID : String) (message : String) (label : Option Int)
  | dispatch (revision : String) (builders : List String)
deriving DecidableEq, Repr

/-- One iteration of the poll loop (part_000:433-453): `findChanges`
(with the query built in part_000:320-328), then per change the
"TryBots beginning" comment, the dispatch, and the results comment with
the TryBot-Result label. -/
def pollIterationActions (repo : String) (builders : List String)
    (changes : List ChangeInfo) (resultsFor : String → List result) : List Action :=
  Action.queryChanges ("project:" ++ repo
      ++ " status:open label:Run-TryBot+1 -label:TryBot-Result-1 -label:TryBot-Result+1")
    :: changes.flatMap (fun ch =>
      [Action.setReview ch.id "TryBots beginning" none,
       Action.dispatch ch.currentRevision builders,
       Action.setReview ch.id (commentText (resultsFor ch.currentRevision))
         (some (commentAgg (resultsFor ch.currentRevision)).2)])

/-- The mode branch of `main` (part_000:428-455): a non-empty `-revision`
flag runs the dispatcher once and exits; otherwise the poll loop runs,
modelled over a finite list of iterations, each seeing the changes the
query returned then. -/
def mainActions (revision repo : String) (builders : List String)
    (iterations : List (List ChangeInfo)) (resultsFor : String → List result) :
    List Action :=
  if revision ≠ "" then [Action.dispatch revision builders]
  else iterations.flatMap (fun chs => pollIterationActions repo builders chs resultsFor)

/-! ## Helper lemmas -/

/-- Once the aggregate has turned to `("failed", -1)` it stays there: no
iteration of the `commentResults` loop resets it. -/
theorem commentAgg_absorb (rs : List result) :
    rs.foldl (fun acc res => if res.succeeded then acc else ("failed", -1))
      (("failed" : String), (-1 : Int)) = ("failed", -1) := by
  induction rs with
  | nil => rfl
  | cons r rest ih => by_cases h : r.succeeded <;> simp [List.foldl, h, ih]

/-- Closed form of the aggregate: all-succeeded gives `("succeeded", 1)`,
anything else gives `("failed", -1)`. -/
theorem commentAgg_eq (rs : List result) :
    commentAgg rs =
      if rs.all (fun r => r.succeeded) then ("succeeded", 1) else ("failed", -1) := by
  induction rs with
  | nil => rfl
  | cons r rest ih =>
    by_cases h : r.succeeded
    · simpa [commentAgg, List.foldl, h] using ih
    · simpa [commentAgg, List.foldl, h] using commentAgg_absorb rest

/-! ## Claims about the result reporter -/

/-- C3: the final report's aggregate is a deterministic function of the
result set — the TryBot-Result label is `+1` and the state `"succeeded"`
iff every result succeeded, and any failed result forces label `-1` and
state `"failed"`. -/
theorem C3_aggregate_label (rs : List result) :
    ((commentAgg rs).2 = 1 ∧ (commentAgg rs).1 = "succeeded"
      ↔ ∀ r ∈ rs, r.succeeded = true)
    ∧ ((∃ r ∈ rs, r.succeeded = false)
      → (commentAgg rs).2 = -1 ∧ (commentAgg rs).1 = "failed") := by
  rw [commentAgg_eq]
  by_cases h : rs.all (fun r => r.succeeded)
  · rw [if_pos h]
    refine ⟨⟨fun _ => by simpa [List.all_eq_true] using h, fun _ => ⟨rfl, rfl⟩⟩, ?_⟩
    rintro ⟨r, hr, hfalse⟩
    have := (List.all_eq_true.1 h) r hr
    simp [hfalse] at this
  · rw [if_neg h]
    refine ⟨⟨fun hc => absurd hc.1 (by decide), fun hall => ?_⟩, fun _ => ⟨rfl, rfl⟩⟩
    exact absurd (List.all_eq_true.2 (fun r hr => by simpa using hall r hr)) h

/-- C3 witness: at `[{A, true}, {B, false}]` the aggregate is
`("failed", -1)`. -/
theorem C3_aggregate_label_witness :
    (commentAgg [⟨"A", "urlA", true⟩, ⟨"B", "urlB", false⟩]).2 = -1
    ∧ (commentAgg [⟨"A", "urlA", true⟩, ⟨"B", "urlB", false⟩]).1 = "failed" :=
  (C3_aggregate_label [⟨"A", "urlA", true⟩, ⟨"B", "urlB", false⟩]).2
    ⟨⟨"B", "urlB", false⟩, by decide, rfl⟩

/-- C4 counterexample: the claim predicts the failure marker `[fail]`
(`specResultLine`), but the source writes `s = "failed"`, so the row of a
failed result differs from the claimed form. -/
theorem C4_row_marker_cex :
    resultLine ⟨"linux-amd64", "https://log", false⟩
      ≠ specResultLine ⟨"linux-amd64", "https://log", false⟩ := by decide

/-- C4 (amended): the final report has exactly one table row per result,
of the form builder type, then `[pass]` for a succeeded result or
`[failed]` for a failed one, then the log locator. -/
theorem C4_one_row_per_result (rs : List result) :
    (commentRows rs).length = rs.length
    ∧ ∀ (i : Nat) (r : result), rs[i]? = some r →
        (commentRows rs)[i]? =
          some ("    " ++ r.builderType ++ "\t["
            ++ (if r.succeeded then "pass" else "failed") ++ "]\t" ++ r.logURL ++ "\n") := by
  refine ⟨by simp [commentRows], fun i r h => ?_⟩
  simp [commentRows, List.getElem?_map, h, resultLine]

/-- C4 witness: one succeeded and one failed result yield the two rows
with markers `[pass]` and `[failed]`. -/
theorem C4_one_row_per_result_witness :
    (commentRows [⟨"linux-amd64", "L", true⟩, ⟨"darwin-arm64-12", "M", false⟩]).length = 2
    ∧ (commentRows [⟨"linux-amd64", "L", true⟩, ⟨"darwin-arm64-12", "M", false⟩])[1]? =
        some "    darwin-arm64-12\t[failed]\tM\n" :=
  ⟨(C4_one_row_per_result [⟨"linux-amd64", "L", true⟩, ⟨"darwin-arm64-12", "M", false⟩]).1,
   by
    have := (C4_one_row_per_result
      [⟨"linux-amd64", "L", true⟩, ⟨"darwin-arm64-12", "M", false⟩]).2 1
      ⟨"darwin-arm64-12", "M", false⟩ rfl
    simpa using this⟩

/-- C9: on an empty result list the final report is the comment
`Tests succeeded` with no table rows and the TryBot-Result label `+1`. -/
theorem C9_empty_result_list :
    commentText [] = "Tests succeeded\n"
    ∧ (commentAgg []).1 = "succeeded" ∧ (commentAgg []).2 = 1
    ∧ commentRows [] = [] := by
  refine ⟨by decide, rfl, rfl, rfl⟩

/-! ## Claims about the archive fetcher -/

/-- C5: `getTar` returns the fetch error on a non-200 status, the
distinct invalid-archive error on a 200 response whose body fails the
gzip check, and exactly the body bytes on a 200 response with a valid
gzip body; only the first (and only) response is consumed — no retry. -/
theorem C5_getTar_contract (gz : List Nat → Bool) (resp : HTTPResponse)
    (rest rest' : List HTTPResponse) :
    (resp.statusCode ≠ 200
      → getTar gz (resp :: rest) = .error (.fetchError resp.statusCode))
    ∧ (resp.statusCode = 200 → gz resp.body = false
      → getTar gz (resp :: rest) = .error .invalidArchive)
    ∧ (resp.statusCode = 200 → gz resp.body = true
      → getTar gz (resp :: rest) = .ok resp.body)
    ∧ getTar gz (resp :: rest) = getTar gz (resp :: rest')
    ∧ ∀ s, TarError.invalidArchive ≠ TarError.fetchError s := by
  refine ⟨fun h => by simp [getTar, h], fun h hg => by simp [getTar, h, hg],
    fun h hg => by simp [getTar, h, hg], rfl, fun s => by simp⟩

/-- C5 witness: a 404 yields the fetch error; a 200 HTML body fails the
gzip check; a 200 body with a gzip header is returned unmodified. -/
theorem C5_getTar_contract_witness :
    getTar gzipMagic [⟨404, []⟩] = .error (.fetchError 404)
    ∧ getTar gzipMagic [⟨200, [60, 104, 116, 109, 108, 62]⟩] = .error .invalidArchive
    ∧ getTar gzipMagic [⟨200, [31, 139, 8, 0, 0, 0, 0, 0, 0, 3]⟩]
        = .ok [31, 139, 8, 0, 0, 0, 0, 0, 0, 3] :=
  ⟨(C5_getTar_contract gzipMagic ⟨404, []⟩ [] []).1 (by decide),
   (C5_getTar_contract gzipMagic ⟨200, [60, 104, 116, 109, 108, 62]⟩ [] []).2.1 rfl (by decide),
   (C5_getTar_contract gzipMagic ⟨200, [31, 139, 8, 0, 0, 0, 0, 0, 0, 3]⟩ [] []).2.2.1
     rfl (by decide)⟩

/-! ## Claims about builder selection -/

/-- `checkBuilders` only ever returns builders that pass the allow-list
(given that the accumulator already does). -/
theorem checkBuilders_sound (l : List String) :
    ∀ acc bs, (∀ b ∈ acc, allowedBuilders b = true)
      → checkBuilders l acc = some bs → ∀ b ∈ bs, allowedBuilders b = true := by
  induction l with
  | nil =>
    intro acc bs hacc h
    simp only [checkBuilders] at h
    cases h
    exact hacc
  | cons b rest ih =>
    intro acc bs hacc h
    simp only [checkBuilders] at h
    by_cases hb : allowedBuilders b
    · rw [if_pos hb] at h
      refine ih (acc ++ [b]) bs (fun x hx => ?_) h
      rcases List.mem_append.1 hx with h1 | h1
      · exact hacc x h1
      · simpa [List.mem_singleton.1 h1] using hb
    · rw [if_neg hb] at h
      cases h

/-- A list containing a disallowed builder makes `checkBuilders` fail
(the `log.Fatalf` path). -/
theorem checkBuilders_fatal (l : List String) :
    ∀ acc, (∃ b ∈ l, allowedBuilders b = false) → checkBuilders l acc = none := by
  induction l with
  | nil => rintro acc ⟨b, hb, -⟩; cases hb
  | cons b rest ih =>
    rintro acc ⟨x, hx, hxf⟩
    simp only [checkBuilders]
    rcases List.mem_cons.1 hx with h1 | h1
    · rw [h1] at hxf; rw [if_neg (by simp [hxf])]
    · by_cases hb : allowedBuilders b
      · rw [if_pos hb]; exact ih _ ⟨x, h1, hxf⟩
      · rw [if_neg hb]

/-- C10: a non-empty `-builders` flag is allow-list checked — every
selected builder is allowed, and any disallowed entry is fatal — while an
empty flag selects `firstClassBuilders` unchecked, a list containing
`linux-arm-aws`, `linux-arm64-aws` and `windows-amd64-longtest`, none of
which are in the allow-list. -/
theorem C10_allow_list_enforcement :
    (∀ s bs, s ≠ "" → selectBuilders s = some bs → ∀ b ∈ bs, allowedBuilders b = true)
    ∧ (∀ s, s ≠ ""
        → (∃ b ∈ stringsSplitComma s, allowedBuilders b = false)
        → selectBuilders s = none)
    ∧ selectBuilders "" = some firstClassBuilders
    ∧ ("linux-arm-aws" ∈ firstClassBuilders ∧ allowedBuilders "linux-arm-aws" = false)
    ∧ ("linux-arm64-aws" ∈ firstClassBuilders ∧ allowedBuilders "linux-arm64-aws" = false)
    ∧ ("windows-amd64-longtest" ∈ firstClassBuilders
        ∧ allowedBuilders "windows-amd64-longtest" = false) := by
  refine ⟨?_, ?_, by decide, by decide, by decide, by decide⟩
  · intro s bs hs h
    rw [selectBuilders, if_pos hs] at h
    exact checkBuilders_sound _ [] bs (by simp) h
  · intro s hs hex
    rw [selectBuilders, if_pos hs]
    exact checkBuilders_fatal _ [] hex

/-- C10 witness: `"linux-amd64,js-wasm"` passes the check with both
builders allowed; `"linux-arm-aws"` is fatal. -/
theorem C10_allow_list_enforcement_witness :
    allowedBuilders "linux-amd64" = true ∧ selectBuilders "linux-arm-aws" = none :=
  ⟨C10_allow_list_enforcement.1 "linux-amd64,js-wasm" ["linux-amd64", "js-wasm"]
      (by decide) (by decide) "linux-amd64" (by decide),
   C10_allow_list_enforcement.2.1 "linux-arm-aws" (by decide)
      ⟨"linux-arm-aws", by decide, by decide⟩⟩

/-! ## Claims about the worker run and the dispatcher -/

/-- Every exit path of the post-staging tail of `runTests` emits exactly
the deferred closes `post` after `pre`. -/
theorem runExec_events (env : RunEnv) (url : String) (pre post : List WEvent) :
    (runExec env url pre post).events = pre ++ post := by
  unfold runExec
  cases env.workDir with
  | none => rfl
  | some w => by_cases h1 : env.execErr <;> by_cases h2 : env.remoteErr <;> simp [h1, h2]

/-- After a successful worker creation, every exit path of `runTests`
emits the creation followed by exactly one worker teardown (preceded by
the sink close when a live writer was created). -/
theorem runTests_created_events (env : RunEnv) (gcsBucket : Option String)
    (rev bt : String) (h : env.createWorker ≠ none) :
    (runTests env gcsBucket rev bt).events = [WEvent.createWorker, WEvent.closeWorker]
    ∨ (runTests env gcsBucket rev bt).events
        = [WEvent.createWorker, WEvent.closeSink, WEvent.closeWorker] := by
  obtain ⟨cw, bc, p1, p2, p3, p4, wd, sfx, e1, e2⟩ := env
  cases cw with
  | none => exact absurd rfl h
  | some name =>
    cases bc with
    | none => left; rfl
    | some cfg =>
      simp only [runTests]
      cases gcsBucket with
      | none =>
        repeat' split
        all_goals simp [runExec_events]
      | some bucket =>
        repeat' split
        all_goals simp [runExec_events]

/-- C2: when worker creation succeeds, `runTests` tears the worker down
exactly once on every exit path; when creation fails, the run is failed
immediately and no lifecycle event (in particular no teardown) occurs. -/
theorem C2_teardown_exactly_once (env : RunEnv) (gcsBucket : Option String)
    (rev bt : String) :
    (env.createWorker ≠ none →
      (runTests env gcsBucket rev bt).events.count WEvent.closeWorker = 1
      ∧ (runTests env gcsBucket rev bt).events.count WEvent.createWorker = 1)
    ∧ (env.createWorker = none →
      (runTests env gcsBucket rev bt).events = []
      ∧ (runTests env gcsBucket rev bt).succeeded = false) := by
  constructor
  · intro h
    rcases runTests_created_events env gcsBucket rev bt h with he | he <;> rw [he] <;>
      exact ⟨by decide, by decide⟩
  · intro h
    obtain ⟨cw, bc, p1, p2, p3, p4, wd, sfx, e1, e2⟩ := env
    cases cw with
    | none => exact ⟨rfl, rfl⟩
    | some name => simp at h

/-- C2 witness: a run whose bootstrap staging fails (bootstrap URL set
but `PutTarFromURL` errors) still tears the worker down exactly once. -/
theorem C2_teardown_exactly_once_witness :
    (runTests
        ⟨some "buildlet1", some ⟨"https://bootstrap", [], "src/all.bash", []⟩,
          false, true, true, true, some "/workdir", "00aa", false, false⟩
        (some "securitylogs") "abc123" "linux-amd64").events.count WEvent.closeWorker = 1 :=
  ((C2_teardown_exactly_once
      ⟨some "buildlet1", some ⟨"https://bootstrap", [], "src/all.bash", []⟩,
        false, true, true, true, some "/workdir", "00aa", false, false⟩
      (some "securitylogs") "abc123" "linux-amd64").1 (by simp)).1

/-- C1: after a successful archive fetch, `run` returns exactly one
result per requested builder type, in dispatch order, each carrying that
builder type together with the log locator and success boolean of its
completed worker run — no matter how many individual runs fail. -/
theorem C1_one_result_per_builder (envs : String → RunEnv) (gcsBucket : Option String)
    (gz : List Nat → Bool) (responses : List HTTPResponse)
    (revision : String) (builders : List String) (archive : List Nat)
    (hne : builders ≠ []) (hfetch : getTar gz responses = .ok archive) :
    ∃ rs, run envs gcsBucket gz responses revision builders = .ok rs
      ∧ rs.length = builders.length
      ∧ rs.map result.builderType = builders
      ∧ ∀ (i : Nat) (r : result), rs[i]? = some r →
          r.logURL = (runTests (envs r.builderType) gcsBucket revision r.builderType).logURL
          ∧ r.succeeded
              = (runTests (envs r.builderType) gcsBucket revision r.builderType).succeeded := by
  refine ⟨builders.map (fun bt =>
      ⟨bt, (runTests (envs bt) gcsBucket revision bt).logURL,
        (runTests (envs bt) gcsBucket revision bt).succeeded⟩), ?_, by simp, ?_, ?_⟩
  · simp [run, hfetch]
  · simp [List.map_map, Function.comp_def]
  · intro i r h
    rw [List.getElem?_map] at h
    rcases Option.map_eq_some'.1 h with ⟨bt, _, hr⟩
    subst hr
    exact ⟨rfl, rfl⟩

/-- C1 witness: one builder, a valid gzip archive fetched, a failing run
environment — the dispatcher still reports exactly one result for it. -/
theorem C1_one_result_per_builder_witness :
    ∃ rs, run (fun _ => ⟨none, none, false, false, false, false, none, "", true, true⟩)
        (some "securitylogs") gzipMagic [⟨200, [31, 139, 8, 0, 0, 0, 0, 0, 0, 3]⟩]
        "abc123" ["linux-amd64"] = .ok rs
      ∧ rs.map result.builderType = ["linux-amd64"] := by
  obtain ⟨rs, h1, -, h3, -⟩ :=
    C1_one_result_per_builder
      (fun _ => ⟨none, none, false, false, false, false, none, "", true, true⟩)
      (some "securitylogs") gzipMagic [⟨200, [31, 139, 8, 0, 0, 0, 0, 0, 0, 3]⟩]
      "abc123" ["linux-amd64"] [31, 139, 8, 0, 0, 0, 0, 0, 0, 3]
      (by decide) rfl
  exact ⟨rs, h1, h3⟩

/-! ## Claims about the scheduling loop -/

/-- C8: with an explicit revision, `main` performs exactly one dispatch
of that revision against the selected builder list and nothing else — in
particular no change query and no review comment or label. -/
theorem C8_one_shot_mode (revision repo : String) (builders : List String)
    (iterations : List (List ChangeInfo)) (resultsFor : String → List result)
    (h : revision ≠ "") :
    mainActions revision repo builders iterations resultsFor
        = [Action.dispatch revision builders]
    ∧ ∀ a ∈ mainActions revision repo builders iterations resultsFor,
        (∀ q, a ≠ Action.queryChanges q)
        ∧ (∀ cid msg lb, a ≠ Action.setReview cid msg lb) := by
  have hm : mainActions revision repo builders iterations resultsFor
      = [Action.dispatch revision builders] := by simp [mainActions, h]
  refine ⟨hm, ?_⟩
  intro a ha
  rw [hm, List.mem_singleton] at ha
  subst ha
  exact ⟨fun q => by simp, fun cid msg lb => by simp⟩

/-- C8 witness: revision `abc123` in one-shot mode produces exactly one
dispatch action. -/
theorem C8_one_shot_mode_witness :
    mainActions "abc123" "golang/go-private" firstClassBuilders [] (fun _ => [])
      = [Action.dispatch "abc123" firstClassBuilders] :=
  (C8_one_shot_mode "abc123" "golang/go-private" firstClassBuilders [] (fun _ => [])
    (by decide)).1

/-! ## Claims about the GCS live writer -/

/-- The buffer bytes accumulated by a sequence of events: the
concatenation of all written byte strings. -/
def accumBytes : List GEvent → List Nat
  | [] => []
  | e :: rest => eventBytes e ++ accumBytes rest

/-- Appending one event to a history steps the machine once. -/
theorem gcsRun_append (evs : List GEvent) (e : GEvent) :
    gcsRun (evs ++ [e]) = gcsStep (gcsRun evs) e := by
  simp [gcsRun, List.foldl_append]

/-- Over a clean history (no stop, no failed periodic flush) the error
channel stays empty and the buffer is exactly the accumulated writes. -/
theorem gcsFoldl_clean (pre : List GEvent) :
    ∀ s : GState, pre.all cleanEvent = true → s.errQ = [] →
      (pre.foldl gcsStep s).errQ = []
      ∧ (pre.foldl gcsStep s).buf = s.buf ++ accumBytes pre := by
  induction pre with
  | nil => intro s _ hq; simp [accumBytes, hq]
  | cons e rest ih =>
    intro s hclean hq
    rw [List.all_cons, Bool.and_eq_true] at hclean
    obtain ⟨he, hrest⟩ := hclean
    cases e with
    | write b =>
      have := ih { s with buf := s.buf ++ b } hrest (by simpa using hq)
      simpa [List.foldl, gcsStep, accumBytes, eventBytes, List.append_assoc] using this
    | tick f =>
      cases f with
      | none =>
        have := ih { s with uploads := s.uploads ++ [s.buf], obj := s.buf } hrest
          (by simpa using hq)
        simpa [List.foldl, gcsStep, accumBytes, eventBytes] using this
      | some n => simp [cleanEvent] at he
    | stop f => simp [cleanEvent] at he

/-- C6 counterexample: with the history `Write [1]` then a failed
periodic flush, the failed flush's error `5` occupies the buffered error
channel, so `Close` returns `some 5` even though its own final flush
succeeded (`finalFail = none`) — refuting that Close's error is the
final flush's error and nothing else. -/
theorem C6_stale_error_cex :
    (gcsClose [GEvent.write [1], GEvent.tick (some 5)] none).2 = some 5
    ∧ (gcsClose [GEvent.write [1], GEvent.tick (some 5)] none).2 ≠ none := by decide

/-- C6 (amended): `Close` triggers exactly one final flush, uploading the
entire buffer accumulated at close time (on success the stored object
equals the full buffer); and PROVIDED no earlier periodic flush failed,
the value `Close` returns is exactly the final flush's error (`none`
when it succeeded). -/
theorem C6_close_final_flush (pre : List GEvent) (finalFail : Option Nat)
    (h : pre.all cleanEvent = true) :
    (gcsClose pre finalFail).2 = finalFail
    ∧ (gcsClose pre finalFail).1.uploads.getLast? = some ((gcsRun pre).buf)
    ∧ (gcsClose pre finalFail).1.uploads.length = (gcsRun pre).uploads.length + 1
    ∧ (finalFail = none → (gcsClose pre finalFail).1.obj = (gcsRun pre).buf)
    ∧ (gcsRun pre).buf = accumBytes pre := by
  have hclean := gcsFoldl_clean pre gcsInit h rfl
  have hq : (gcsRun pre).errQ = [] := hclean.1
  have hbuf : (gcsRun pre).buf = accumBytes pre := by
    simpa [gcsRun, gcsInit] using hclean.2
  have hstep : gcsRun (pre ++ [GEvent.stop finalFail])
      = gcsStep (gcsRun pre) (GEvent.stop finalFail) := gcsRun_append pre _
  cases finalFail with
  | none =>
    refine ⟨?_, ?_, ?_, fun _ => ?_, hbuf⟩ <;>
      simp [gcsClose, hstep, gcsStep, sendErr, hq]
  | some e =>
    refine ⟨?_, ?_, ?_, fun hc => Option.noConfusion hc, hbuf⟩ <;>
      simp [gcsClose, hstep, gcsStep, sendErr, hq]

/-- C6 witness: after a write and a successful periodic flush, `Close`
with a successful final flush returns `none` and has uploaded the full
buffer `[1, 2]`. -/
theorem C6_close_final_flush_witness :
    (gcsClose [GEvent.write [1], GEvent.tick none, GEvent.write [2]] none).2 = none
    ∧ (gcsClose [GEvent.write [1], GEvent.tick none, GEvent.write [2]] none).1.uploads.getLast?
        = some ((gcsRun [GEvent.write [1], GEvent.tick none, GEvent.write [2]]).buf) :=
  ⟨(C6_close_final_flush [GEvent.write [1], GEvent.tick none, GEvent.write [2]] none
      (by decide)).1,
   (C6_close_final_flush [GEvent.write [1], GEvent.tick none, GEvent.write [2]] none
      (by decide)).2.1⟩

/-- C7: the flush loop of `gcsLiveWriter` has no exit, so after the stop
signal of `Close` has been consumed a later ticker fire STILL uploads the
buffer — the background task is not stopped, contradicting the claim
(and the spec's own requirement that close stop the goroutine). -/
theorem C7_flush_survives_close :
    (gcsRun [GEvent.stop none, GEvent.tick none]).uploads.length
        = (gcsRun [GEvent.stop none]).uploads.length + 1
    ∧ (gcsRun [GEvent.stop none, GEvent.tick none]).uploads.getLast?
        = some ((gcsRun [GEvent.stop none]).buf) := by decide

end SecTrybot
